import Mathlib

/-!
Shallow embedding of the AsyncBuzzer core (src/AsyncBuzzer.h, src/AsyncBuzzer.cpp).

The C++ code keeps four file-static globals (`config`, `pulseState`,
`patternState`, `melodyState`); here they are gathered into one record
`BuzzerState` that every operation threads explicitly.  Machine integers are
modelled as `Nat` with explicit wrap (`% 2 ^ 32`) where the C++ relies on
fixed-width unsigned arithmetic: the 32-bit subtraction `now - last` becomes
`sub32`, the `uint32_t` addition `millis() + duration` becomes addition
`% 2 ^ 32`, and the `uint8_t` increments of sequence indices become
`% 256` (the code's guards keep them below 256, so the wrap is inert there).
The several `millis()` reads inside one `update()` pass are modelled as a
single sampled clock value `now` passed to the tick.  Calls into the Arduino
pin driver (`tone`, `noTone`) are modelled as an emitted event list.
Caller-supplied arrays reached through raw pointers become
`Option (List _)` (with `none` for `nullptr`); an indexed read uses the
element's default-constructed value out of range, mirroring the code's
reliance on the caller contract.  The blocking wrappers' `while` loops are
modelled with explicit fuel and an arbitrary clock sequence `clk`.
-/

namespace AsyncBuzzer

/-- Width of the Arduino `millis()` clock and of `uint32_t` arithmetic. -/
def UINT32 : Nat := 2 ^ 32

/-- 32-bit unsigned subtraction `a - b`, for operands already reduced below
`2 ^ 32`: the value of `(uint32_t)(a - b)`. -/
def sub32 (a b : Nat) : Nat := (a + UINT32 - b) % UINT32

/-- `Tone` struct, AsyncBuzzer.h lines 61-67: one melody step. -/
structure Tone where
  frequency : Nat
  duration : Nat
  rest : Nat
deriving Repr, DecidableEq

/-- Default-constructed `Tone()` (f = 0, d = 0, r = BUZZER_PULSE_INTERVAL = 50). -/
instance : Inhabited Tone := ⟨⟨0, 0, 50⟩⟩

/-- `Pulse` struct, AsyncBuzzer.h lines 79-88: the pulse-train state. -/
structure Pulse where
  pulses : Nat
  frequency : Nat
  duration : Nat
  interval : Nat
  last : Nat
  active : Bool
deriving Repr, DecidableEq

/-- Default-constructed `Pulse()` (all zero, inactive). -/
instance : Inhabited Pulse := ⟨⟨0, 0, 0, 0, 0, false⟩⟩

/-- `Pattern` struct, AsyncBuzzer.h lines 90-102.  The C++ field `repeat` is
named `rep` here because `repeat` is reserved in Lean. -/
structure Pattern where
  pulses : Option (List Pulse)
  count : Nat
  current : Nat
  active : Bool
  rep : Bool
  pulseDelay : Nat
  lastPulseEnd : Nat
  waitingForDelay : Bool
deriving Repr, DecidableEq

/-- `Melody` struct, AsyncBuzzer.h lines 104-115.  The C++ field `repeat` is
named `rep` here. -/
structure Melody where
  tones : Option (List Tone)
  count : Nat
  current : Nat
  active : Bool
  rep : Bool
  toneStart : Nat
  playingTone : Bool
deriving Repr, DecidableEq

/-- The `pin` part of the `Config` struct, AsyncBuzzer.h lines 69-77 (the
`ack`/`err` default tones play no role in the claims). -/
structure Config where
  pin : Nat
deriving Repr, DecidableEq

/-- The four file-static globals of AsyncBuzzer.cpp lines 17-20, gathered
into one explicit state record. -/
structure BuzzerState where
  config : Config
  pulseState : Pulse
  patternState : Pattern
  melodyState : Melody
deriving Repr, DecidableEq

/-- A call into the external pin driver: `tone(pin, frequency, duration)` or
`noTone(pin)`. -/
inductive Event where
  | toneStart (pin frequency duration : Nat)
  | toneStop (pin : Nat)
deriving Repr, DecidableEq

/-- The state right after `setup` configured pin `pin`: default-constructed
pulse, pattern and melody state. -/
def initialState (pin : Nat) : BuzzerState :=
  ⟨⟨pin⟩, ⟨0, 0, 0, 0, 0, false⟩,
    ⟨none, 0, 0, false, false, 300, 0, false⟩,
    ⟨none, 0, 0, false, false, 0, false⟩⟩

/-- `advancePattern`, AsyncBuzzer.cpp lines 60-81: bump `current` (a
`uint8_t`), wrap to 0 on `repeat` or deactivate at the end, and load the new
current entry into the embedded pulse train. -/
def advancePattern (st : BuzzerState) : Bool × BuzzerState :=
  if !st.patternState.active || st.patternState.pulses.isNone ||
      st.patternState.count == 0 then
    (false, { st with patternState := { st.patternState with active := false } })
  else
    let cur := (st.patternState.current + 1) % 256
    if cur ≥ st.patternState.count then
      if st.patternState.rep then
        let pat := { st.patternState with current := 0 }
        let np := (pat.pulses.getD []).getD 0 default
        (true, { st with
                 patternState := pat,
                 pulseState := ⟨np.pulses, np.frequency, np.duration, np.interval, 0, true⟩ })
      else
        (false, { st with patternState :=
                  { st.patternState with current := cur, active := false } })
    else
      let pat := { st.patternState with current := cur }
      let np := (pat.pulses.getD []).getD cur default
      (true, { st with
               patternState := pat,
               pulseState := ⟨np.pulses, np.frequency, np.duration, np.interval, 0, true⟩ })

/-- The pulse-train branch of `update`, AsyncBuzzer.cpp lines 85-107: fire
when `last == 0` or `now - last >= interval + duration` (32-bit subtraction);
on exhaustion deactivate and, when a pattern is active, record
`millis() + duration` as `lastPulseEnd` and raise `waitingForDelay`.  The
branch returns `pulseState.last == now` evaluated on the mutated state. -/
def tickPulse (st : BuzzerState) (now : Nat) : Bool × BuzzerState × List Event :=
  if st.pulseState.pulses > 0 then
    if st.pulseState.last == 0 ||
        sub32 now st.pulseState.last ≥ st.pulseState.interval + st.pulseState.duration then
      let ps := { st.pulseState with last := now, pulses := st.pulseState.pulses - 1 }
      (ps.last == now, { st with pulseState := ps },
        [Event.toneStart st.config.pin st.pulseState.frequency st.pulseState.duration])
    else
      (st.pulseState.last == now, st, [])
  else
    let ps := { st.pulseState with active := false }
    let pat :=
      if st.patternState.active then
        { st.patternState with
          lastPulseEnd := (now + st.pulseState.duration) % UINT32,
          waitingForDelay := true }
      else st.patternState
    (ps.last == now, { st with pulseState := ps, patternState := pat }, [])

/-- The pattern bookkeeping of `update`, AsyncBuzzer.cpp lines 109-123: when
waiting for the inter-entry delay, first `now >= lastPulseEnd` (an absolute
timestamp comparison), then `now - lastPulseEnd >= pulseDelay`; otherwise,
an active pattern whose embedded pulse train has gone inactive advances
immediately. -/
def tickPatternPhase (st : BuzzerState) (now : Nat) : BuzzerState :=
  if st.patternState.active && st.patternState.waitingForDelay then
    if now ≥ st.patternState.lastPulseEnd then
      if sub32 now st.patternState.lastPulseEnd ≥ st.patternState.pulseDelay then
        (advancePattern
          { st with patternState := { st.patternState with waitingForDelay := false } }).2
      else st
    else st
  else if st.patternState.active && !st.pulseState.active &&
      !st.patternState.waitingForDelay then
    (advancePattern st).2
  else st

/-- The melody branch of `update`, AsyncBuzzer.cpp lines 125-166: runs only
when the melody is active, a pin is configured and neither pulse train nor
pattern is active; begins a step when `toneStart == 0` (calling `tone` only
for positive frequency), stops the tone after `duration`, advances after
`duration + rest`, and at the end of the list restarts or deactivates. -/
def tickMelodyPhase (st : BuzzerState) (now : Nat) : BuzzerState × List Event :=
  if st.melodyState.active && st.config.pin != 255 &&
      !st.pulseState.active && !st.patternState.active then
    let m := st.melodyState
    if m.current < m.count then
      let ct := (m.tones.getD []).getD m.current default
      if m.toneStart == 0 then
        let evs := if ct.frequency > 0 then
            [Event.toneStart st.config.pin ct.frequency ct.duration] else []
        ({ st with melodyState := { m with toneStart := now, playingTone := true } }, evs)
      else if m.playingTone then
        if sub32 now m.toneStart ≥ ct.duration then
          ({ st with melodyState := { m with playingTone := false } },
            [Event.toneStop st.config.pin])
        else (st, [])
      else
        if sub32 now m.toneStart ≥ ct.duration + ct.rest then
          ({ st with melodyState :=
              { m with current := (m.current + 1) % 256, toneStart := 0 } }, [])
        else (st, [])
    else
      if m.rep then
        ({ st with melodyState :=
            { m with current := 0, toneStart := 0, playingTone := false } }, [])
      else
        ({ st with melodyState := { m with active := false } }, [])
  else (st, [])

/-- `update`, AsyncBuzzer.cpp lines 83-169: the tick dispatcher.  An active
pulse train on a configured pin is handled first and returns early; otherwise
the pattern bookkeeping runs, then the melody branch on the resulting state,
and the call returns `false`. -/
def update (st : BuzzerState) (now : Nat) : Bool × BuzzerState × List Event :=
  if st.pulseState.active && st.config.pin != 255 then
    tickPulse st now
  else
    let st1 := tickPatternPhase st now
    let r := tickMelodyPhase st1 now
    (false, r.1, r.2)

/-- `pulse`, AsyncBuzzer.cpp lines 219-224: no-op without a configured pin or
with `count == 0`; otherwise overwrite the pulse-train state. -/
def pulse (st : BuzzerState) (count frequency duration interval : Nat) : BuzzerState :=
  if st.config.pin == 255 || count == 0 then st
  else { st with pulseState := ⟨count, frequency, duration, interval, 0, true⟩ }

/-- `pattern`, AsyncBuzzer.cpp lines 233-242: no-op without a configured pin,
a null list or `count == 0`; otherwise install the pattern and load entry 0
into the embedded pulse train. -/
def pattern (st : BuzzerState) (pulses : Option (List Pulse)) (count : Nat)
    (rep : Bool) (pulseDelay : Nat) : BuzzerState :=
  if st.config.pin == 255 || pulses.isNone || count == 0 then st
  else
    let fp := (pulses.getD []).getD 0 default
    { st with
      patternState := ⟨pulses, count, 0, true, rep, pulseDelay, 0, false⟩,
      pulseState := ⟨fp.pulses, fp.frequency, fp.duration, fp.interval, 0, true⟩ }

/-- `isPatternActive`, AsyncBuzzer.cpp lines 251-254. -/
def isPatternActive (st : BuzzerState) : Bool := st.patternState.active

/-- `stopPattern`, AsyncBuzzer.cpp lines 256-260: clears both active flags;
it performs no pin-driver call, hence the empty event list. -/
def stopPattern (st : BuzzerState) : BuzzerState × List Event :=
  ({ st with patternState := { st.patternState with active := false },
             pulseState := { st.pulseState with active := false } }, [])

/-- `stopMelody`, AsyncBuzzer.cpp lines 292-297: clears the melody flag and,
when a pin is configured, calls `noTone` on it. -/
def stopMelody (st : BuzzerState) : BuzzerState × List Event :=
  let st' := { st with melodyState := { st.melodyState with active := false } }
  if st.config.pin != 255 then (st', [Event.toneStop st.config.pin]) else (st', [])

/-- `melody`, AsyncBuzzer.cpp lines 262-274: no-op without a configured pin,
a null list or `count == 0`; otherwise `stopMelody` then reassign every
melody field. -/
def melody (st : BuzzerState) (tones : Option (List Tone)) (count : Nat)
    (rep : Bool) : BuzzerState × List Event :=
  if st.config.pin == 255 || tones.isNone || count == 0 then (st, [])
  else
    let p := stopMelody st
    ({ p.1 with melodyState := ⟨tones, count, 0, true, rep, 0, false⟩ }, p.2)

/-- `isMelodyActive`, AsyncBuzzer.cpp lines 287-290. -/
def isMelodyActive (st : BuzzerState) : Bool := st.melodyState.active

/-- The `while (pulseState.pulses) update();` loop of `pulseBlocking`,
AsyncBuzzer.cpp lines 226-231, with explicit fuel and a clock sequence `clk`
giving the `millis()` value of the `i`-th iteration; `none` means the fuel
ran out before the loop condition turned false. -/
def pulseLoop (clk : Nat → Nat) : Nat → Nat → BuzzerState → Option BuzzerState
  | 0, _, _ => none
  | fuel + 1, i, st =>
    if st.pulseState.pulses != 0 then
      pulseLoop clk fuel (i + 1) (update st (clk i)).2.1
    else some st

/-- `pulseBlocking`, AsyncBuzzer.cpp lines 226-231: start the pulse, then
loop on the remaining pulse count. -/
def pulseBlocking (clk : Nat → Nat) (fuel : Nat) (st : BuzzerState)
    (count frequency duration interval : Nat) : Option BuzzerState :=
  pulseLoop clk fuel 0 (pulse st count frequency duration interval)

/-- The `while (patternState.active || pulseState.active) update();` loop of
`patternBlocking`, AsyncBuzzer.cpp lines 244-249. -/
def patternLoop (clk : Nat → Nat) : Nat → Nat → BuzzerState → Option BuzzerState
  | 0, _, _ => none
  | fuel + 1, i, st =>
    if st.patternState.active || st.pulseState.active then
      patternLoop clk fuel (i + 1) (update st (clk i)).2.1
    else some st

/-- `patternBlocking`, AsyncBuzzer.cpp lines 244-249. -/
def patternBlocking (clk : Nat → Nat) (fuel : Nat) (st : BuzzerState)
    (pulses : Option (List Pulse)) (count : Nat) (rep : Bool) (pulseDelay : Nat) :
    Option BuzzerState :=
  patternLoop clk fuel 0 (pattern st pulses count rep pulseDelay)

/-- The `while (melodyState.active) { update(); delay(1); }` loop of
`melodyBlocking`, AsyncBuzzer.cpp lines 276-285 (the `delay(1)` only spends
time; the clock sequence `clk` already carries the timing). -/
def melodyLoop (clk : Nat → Nat) : Nat → Nat → BuzzerState → Option BuzzerState
  | 0, _, _ => none
  | fuel + 1, i, st =>
    if st.melodyState.active then
      melodyLoop clk fuel (i + 1) (update st (clk i)).2.1
    else some st

/-- `melodyBlocking`, AsyncBuzzer.cpp lines 276-285: start the melody, force
`melodyState.repeat = false`, then loop on the melody's active flag. -/
def melodyBlocking (clk : Nat → Nat) (fuel : Nat) (st : BuzzerState)
    (tones : Option (List Tone)) (count : Nat) (rep : Bool) : Option BuzzerState :=
  let p := melody st tones count rep
  let st2 := { p.1 with melodyState := { p.1.melodyState with rep := false } }
  melodyLoop clk fuel 0 st2

/-- Run `update` at each clock value of the list in order, keeping the state. -/
def runUpdates (st : BuzzerState) : List Nat → BuzzerState
  | [] => st
  | t :: ts => runUpdates (update st t).2.1 ts

/-- `true` when the event is not a `tone` start (so `noTone` or nothing). -/
def notAToneStart : Event → Bool
  | Event.toneStart _ _ _ => false
  | Event.toneStop _ => true

/-- A predicate holds of the state a fuelled loop returned, vacuously when
the fuel ran out. -/
def optionHolds (p : BuzzerState → Bool) : Option BuzzerState → Bool
  | none => true
  | some st => p st

end AsyncBuzzer

namespace AsyncBuzzer

/-- C1: the claim states every elapsed-time decision of the tick function is
computed wrap-safely as `(now - reference) >= threshold` with no direct
comparison of absolute timestamps, so that shifting `now` and the stored
reference by the same 32-bit offset never changes the decision.  The pattern
sequencer's waiting-for-delay branch (AsyncBuzzer.cpp line 112) first checks
`now >= lastPulseEnd`, a direct comparison of absolute timestamps: here a
pattern whose last pulse fired at `now = 4294967236` with duration 100 stores
`lastPulseEnd = (4294967236 + 100) % 2^32 = 40`, and an update only 10 ms
later (`now = 4294967246`, `pulseDelay = 1000`) clears the waiting flag and
advances, while the same state with both timestamps shifted by +100
(`lastPulseEnd = 140`, `now = 50`) keeps waiting — the decision is not
invariant under a common 32-bit shift. -/
theorem c1_pattern_delay_not_wrap_safe :
    ((update
        ⟨⟨5⟩, ⟨0, 1000, 100, 20, 4294967236, false⟩,
          ⟨some [⟨1, 1000, 100, 20, 0, false⟩, ⟨1, 900, 100, 20, 0, false⟩],
            2, 0, true, false, 1000, 40, true⟩,
          ⟨none, 0, 0, false, false, 0, false⟩⟩
        4294967246).2.1.patternState.waitingForDelay = false) ∧
    ((update
        ⟨⟨5⟩, ⟨0, 1000, 100, 20, 4294967236, false⟩,
          ⟨some [⟨1, 1000, 100, 20, 0, false⟩, ⟨1, 900, 100, 20, 0, false⟩],
            2, 0, true, false, 1000, 140, true⟩,
          ⟨none, 0, 0, false, false, 0, false⟩⟩
        50).2.1.patternState.waitingForDelay = true) := by
  constructor
  · decide
  · decide

/-- The state used by the C2 theorems: pin 5 configured and a single-entry
pattern just started, so the pattern sequencer is active. -/
def c2State : BuzzerState :=
  pattern (initialState 5) (some [⟨2, 100, 10, 10, 0, false⟩]) 1 false 300

/-- C2, counterexample: the claim states that calling `pulse` with a positive
count and a configured pin while a pattern is active immediately makes
`isPatternActive()` return false.  In the code `pulse` (AsyncBuzzer.cpp lines
219-224) only overwrites `pulseState` and never touches `patternState`: with
an active pattern, `isPatternActive` is still true after `pulse 1 200 10 10`. -/
theorem c2_pulse_leaves_pattern_active :
    isPatternActive c2State = true ∧
    isPatternActive (pulse c2State 1 200 10 10) = true := by
  constructor
  · decide
  · decide

/-- C3, counterexample: the claim states `update()` returns true if and only
if the call triggered a brand-new tone event, covering melody tone starts.
Here a freshly started melody step fires `tone(5, 440, 100)` during the
update, yet the call returns false (the dispatcher's melody path always
returns false, AsyncBuzzer.cpp line 168). -/
theorem c3_melody_tone_returns_false :
    (update (melody (initialState 5) (some [⟨440, 100, 50⟩]) 1 false).1 5).2.2 =
      [Event.toneStart 5 440 100] ∧
    (update (melody (initialState 5) (some [⟨440, 100, 50⟩]) 1 false).1 5).1 = false := by
  constructor
  · decide
  · decide

/-- C4, counterexample: the claim states a running melody is frozen during a
pulse and afterwards "plays out exactly as it would have without the
interruption, with each remaining step still consuming its full duration and
rest".  Here a melody step (duration 100, rest 50) begins at t = 1; a pulse
train occupies t = 2 through t = 300 (during which the melody fields are
indeed untouched, first conjunct); but because `toneStart` stores an absolute
timestamp the interruption time counts toward the step, and just 2 ms after
resuming (updates at t = 301 and t = 302) the step has already completed
(`current = 1`) instead of consuming its remaining ≈149 ms afresh. -/
theorem c4_interruption_consumes_step_time :
    ((runUpdates (pulse (runUpdates
        (melody (initialState 5) (some [⟨440, 100, 50⟩, ⟨880, 100, 0⟩]) 2 false).1
        [1]) 2 1000 200 50) [2, 252, 300]).melodyState =
      (runUpdates
        (melody (initialState 5) (some [⟨440, 100, 50⟩, ⟨880, 100, 0⟩]) 2 false).1
        [1]).melodyState) ∧
    ((runUpdates (pulse (runUpdates
        (melody (initialState 5) (some [⟨440, 100, 50⟩, ⟨880, 100, 0⟩]) 2 false).1
        [1]) 2 1000 200 50) [2, 252, 300]).pulseState.active = false) ∧
    ((runUpdates (runUpdates (pulse (runUpdates
        (melody (initialState 5) (some [⟨440, 100, 50⟩, ⟨880, 100, 0⟩]) 2 false).1
        [1]) 2 1000 200 50) [2, 252, 300]) [301, 302]).melodyState.current = 1) := by
  refine ⟨?_, ?_, ?_⟩
  · decide
  · decide
  · decide

/-- C5, counterexample: the claim states `stopPattern()` forces the pin
driver to silence output immediately within the same call when a pin is
configured.  In the code (AsyncBuzzer.cpp lines 256-260) `stopPattern` only
clears the two active flags and never calls `noTone`: on a configured pin
with an active, sounding pattern it performs no pin-driver call at all. -/
theorem c5_stopPattern_never_silences :
    (stopPattern (runUpdates
      (pattern (initialState 5) (some [⟨2, 100, 10, 10, 0, false⟩]) 1 false 300)
      [7])).2 = [] := by decide

/-- C6: the claim replays the spec scenario `pulse(3, 1000, 50, 20)` with the
first update at simulated t = 0, expecting tone #2 no earlier than t = 70.
Firing at t = 0 stores `last = 0`, which collides with the `last == 0`
"not yet fired" sentinel (AsyncBuzzer.cpp line 90), so the very next update
at t = 1 fires tone #2 immediately: the code contradicts the spec's own
scenario (and its `last == 0` invariant) at this input. -/
theorem c6_time_zero_sentinel_collision :
    (update (pulse (initialState 5) 3 1000 50 20) 0).2.2 =
      [Event.toneStart 5 1000 50] ∧
    (update (update (pulse (initialState 5) 3 1000 50 20) 0).2.1 1).2.2 =
      [Event.toneStart 5 1000 50] := by
  constructor
  · decide
  · decide

/-- C9, counterexample: the claim states each blocking wrapper loops until
the relevant active flag clears, so that on return the driven state machine's
active flag is false.  `pulseBlocking` (AsyncBuzzer.cpp lines 226-231) loops
on `pulseState.pulses` instead: after `pulseBlocking` of a 1-pulse train the
loop exits with `pulses = 0` while `pulseState.active` is still true (it is
only cleared by a later update). -/
theorem c9_pulseBlocking_returns_active :
    ((pulseBlocking (fun i => i + 5) 10 (initialState 5) 1 1000 50 20).map
      fun s => s.pulseState.active) = some true := by decide

end AsyncBuzzer

namespace AsyncBuzzer

/-- Helper: `advancePattern` rewrites only the pattern and pulse state. -/
theorem advancePattern_melodyState (st : BuzzerState) :
    (advancePattern st).2.melodyState = st.melodyState := by
  unfold advancePattern
  dsimp only
  split <;> try split <;> try split
  all_goals rfl

/-- Helper: the pattern bookkeeping phase never touches the melody state. -/
theorem tickPatternPhase_melodyState (st : BuzzerState) (now : Nat) :
    (tickPatternPhase st now).melodyState = st.melodyState := by
  unfold tickPatternPhase
  split
  · split
    · split
      · exact advancePattern_melodyState _
      · rfl
    · rfl
  · split
    · exact advancePattern_melodyState _
    · rfl

/-- Helper: the pulse-train branch never touches the melody state. -/
theorem tickPulse_melodyState (st : BuzzerState) (now : Nat) :
    (tickPulse st now).2.1.melodyState = st.melodyState := by
  unfold tickPulse
  dsimp only
  split <;> try split
  all_goals rfl

/-- Helper: the melody phase never touches the pulse-train state. -/
theorem tickMelodyPhase_pulseState (st : BuzzerState) (now : Nat) :
    (tickMelodyPhase st now).1.pulseState = st.pulseState := by
  unfold tickMelodyPhase
  dsimp only
  split
  · split
    · split
      · rfl
      · split
        · split <;> rfl
        · split <;> rfl
    · split <;> rfl
  · rfl

/-- Helper: the melody phase never touches the pattern state. -/
theorem tickMelodyPhase_patternState (st : BuzzerState) (now : Nat) :
    (tickMelodyPhase st now).1.patternState = st.patternState := by
  unfold tickMelodyPhase
  dsimp only
  split
  · split
    · split
      · rfl
      · split
        · split <;> rfl
        · split <;> rfl
    · split <;> rfl
  · rfl

/-- Helper: with an active pulse train or pattern, the melody phase is
skipped entirely. -/
theorem tickMelodyPhase_skip (st : BuzzerState) (now : Nat)
    (h : st.pulseState.active = true ∨ st.patternState.active = true) :
    tickMelodyPhase st now = (st, []) := by
  rcases h with h | h <;> simp [tickMelodyPhase, h]

/-- Helper: when the pulse branch is taken, `update` is `tickPulse`. -/
theorem update_pulse_branch (st : BuzzerState) (now : Nat)
    (h : (st.pulseState.active && st.config.pin != 255) = true) :
    update st now = tickPulse st now := by
  simp [update, h]

/-- Helper: when the pulse branch is not taken, `update` runs the pattern
phase and then the melody phase. -/
theorem update_else_branch (st : BuzzerState) (now : Nat)
    (h : (st.pulseState.active && st.config.pin != 255) = false) :
    update st now =
      (false, (tickMelodyPhase (tickPatternPhase st now) now).1,
        (tickMelodyPhase (tickPatternPhase st now) now).2) := by
  simp [update, h]

/-- C4, amended: while a pulse train is active on a configured pin, and more
generally whenever the call leaves the pulse train or the pattern active,
`update()` leaves every field of the melody state unchanged; however the
melody's step-start timestamp is an absolute clock value, so elapsed time
during the interruption still counts toward the current step's duration and
rest — on resumption the current step completes as soon as the thresholds
are met by the already-elapsed time (possibly immediately, see the
counterexample), and only the steps after it consume their full duration
and rest. -/
theorem c4_melody_frozen_while_interrupted (st : BuzzerState) (now : Nat)
    (h : (st.pulseState.active = true ∧ st.config.pin ≠ 255) ∨
         (update st now).2.1.pulseState.active = true ∨
         (update st now).2.1.patternState.active = true) :
    (update st now).2.1.melodyState = st.melodyState := by
  by_cases hc : (st.pulseState.active && st.config.pin != 255) = true
  · rw [update_pulse_branch st now hc]
    exact tickPulse_melodyState st now
  · have hc' : (st.pulseState.active && st.config.pin != 255) = false :=
      Bool.not_eq_true _ |>.mp hc
    rw [update_else_branch st now hc'] at h ⊢
    rcases h with ⟨ha, hp⟩ | h | h
    · simp [ha, hp] at hc'
    · rw [tickMelodyPhase_pulseState] at h
      rw [tickMelodyPhase_skip _ now (Or.inl h)]
      exact tickPatternPhase_melodyState st now
    · rw [tickMelodyPhase_patternState] at h
      rw [tickMelodyPhase_skip _ now (Or.inr h)]
      exact tickPatternPhase_melodyState st now

/-- The state used by the C4 witness: pin 5, an active 2-pulse train, and a
melody parked mid-step (step 0 sounding since t = 3). -/
def c4State : BuzzerState :=
  { initialState 5 with
    pulseState := ⟨2, 100, 10, 10, 0, true⟩,
    melodyState := ⟨some [⟨440, 100, 50⟩], 1, 0, true, false, 3, true⟩ }

/-- C4, witness for the amended theorem: with the pulse train active on pin
5, an update leaves the melody state untouched. -/
theorem c4_melody_frozen_while_interrupted_witness :
    (c4State.pulseState.active = true ∧ c4State.config.pin ≠ 255) ∧
    (update c4State 7).2.1.melodyState = c4State.melodyState :=
  ⟨⟨by decide, by decide⟩,
    c4_melody_frozen_while_interrupted c4State 7 (Or.inl ⟨by decide, by decide⟩)⟩

/-- C5, amended: `stopPattern()` and `stopMelody()` are synchronous in that
each clears its active flag within the call (`stopPattern` also deactivates
the embedded pulse train) and neither queues a pending tone; but only
`stopMelody` silences the pin driver (calling `noTone` when a pin is
configured) — `stopPattern` performs no pin-driver call at all, so a tone
already started by the pattern's pulse train sounds out its programmed
duration. -/
theorem c5_stop_operations (st : BuzzerState) (h : st.config.pin ≠ 255) :
    (stopPattern st).1.patternState.active = false ∧
    (stopPattern st).1.pulseState.active = false ∧
    (stopPattern st).2 = [] ∧
    (stopMelody st).1.melodyState.active = false ∧
    (stopMelody st).2 = [Event.toneStop st.config.pin] := by
  refine ⟨rfl, rfl, rfl, ?_, ?_⟩ <;> simp [stopMelody, h]

/-- The state used by the C5 witness: pin 5 with pattern, embedded pulse
train and melody all active. -/
def c5State : BuzzerState :=
  { initialState 5 with
    pulseState := ⟨1, 100, 10, 10, 0, true⟩,
    patternState := ⟨some [⟨1, 100, 10, 10, 0, false⟩], 1, 0, true, false, 300, 0, false⟩,
    melodyState := ⟨some [⟨440, 100, 50⟩], 1, 0, true, false, 3, true⟩ }

/-- C5, witness: the amended stop behaviour evaluated on pin 5 with pattern,
pulse train and melody all active. -/
theorem c5_stop_operations_witness :
    c5State.config.pin ≠ 255 ∧
    ((stopPattern c5State).1.patternState.active = false ∧
     (stopPattern c5State).1.pulseState.active = false ∧
     (stopPattern c5State).2 = [] ∧
     (stopMelody c5State).1.melodyState.active = false ∧
     (stopMelody c5State).2 = [Event.toneStop c5State.config.pin]) :=
  ⟨by decide, c5_stop_operations c5State (by decide)⟩

end AsyncBuzzer

namespace AsyncBuzzer

/-- C2, amended: calling `pulse(count, f, d, i)` with `count > 0` and a
configured pin while the pattern sequencer is active leaves the pattern
state — including its active flag, so `isPatternActive()` stays true —
completely unchanged, and replaces the embedded pulse-train state with the
new pulse train; when that pulse train later runs out with the pattern still
active, the update that observes it re-arms the pattern (raises
`waitingForDelay`, firing no tone in that call), so the old pattern resumes
advancing instead of being deactivated. -/
theorem c2_pulse_preempts_but_pattern_stays (st st' : BuzzerState)
    (c f d i now : Nat)
    (hpin : st.config.pin ≠ 255) (hc : c ≠ 0)
    (hpat : st.patternState.active = true)
    (h1 : st'.pulseState.active = true) (h2 : st'.config.pin ≠ 255)
    (h3 : st'.pulseState.pulses = 0) (h4 : st'.patternState.active = true) :
    (pulse st c f d i).patternState = st.patternState ∧
    isPatternActive (pulse st c f d i) = true ∧
    (pulse st c f d i).pulseState = ⟨c, f, d, i, 0, true⟩ ∧
    (update st' now).2.1.patternState.waitingForDelay = true ∧
    (update st' now).2.2 = [] := by
  have hg : (st.config.pin == 255 || c == 0) = false := by simp [hpin, hc]
  have hb : (st'.pulseState.active && st'.config.pin != 255) = true := by
    simp [h1, h2]
  rw [update_pulse_branch st' now hb]
  refine ⟨?_, ?_, ?_, ?_, ?_⟩
  · simp [pulse, hg]
  · simp [isPatternActive, pulse, hg, hpat]
  · simp [pulse, hg]
  · simp [tickPulse, h3, h4]
  · simp [tickPulse, h3]

/-- The state used by the C2 witness re-arm part: the replacement pulse train
has run out (`pulses = 0`, still flagged active) with the pattern active. -/
def c2DoneState : BuzzerState :=
  { c2State with pulseState := ⟨0, 200, 10, 10, 42, true⟩ }

/-- C2, witness for the amended theorem, at the single-entry pattern of
`c2State` preempted by `pulse 1 200 10 10`. -/
theorem c2_pulse_preempts_but_pattern_stays_witness :
    (c2State.config.pin ≠ 255 ∧ (1 : Nat) ≠ 0 ∧ c2State.patternState.active = true ∧
     c2DoneState.pulseState.active = true ∧ c2DoneState.config.pin ≠ 255 ∧
     c2DoneState.pulseState.pulses = 0 ∧ c2DoneState.patternState.active = true) ∧
    ((pulse c2State 1 200 10 10).patternState = c2State.patternState ∧
     isPatternActive (pulse c2State 1 200 10 10) = true ∧
     (pulse c2State 1 200 10 10).pulseState = ⟨1, 200, 10, 10, 0, true⟩ ∧
     (update c2DoneState 50).2.1.patternState.waitingForDelay = true ∧
     (update c2DoneState 50).2.2 = []) :=
  ⟨⟨by decide, by decide, by decide, by decide, by decide, by decide, by decide⟩,
    c2_pulse_preempts_but_pattern_stays c2State c2DoneState 1 200 10 10 50
      (by decide) (by decide) (by decide) (by decide) (by decide) (by decide)
      (by decide)⟩

/-- C3, amended: `update()` returns true exactly when the pulse-train branch
was taken (pulse train active with a configured pin) and, at the end of that
branch, `pulseState.last` equals the sampled clock: this is the case whenever
the call fires a pulse tone, but also on a further call within the same
millisecond that fires nothing; tone events fired by the melody sequencer
never make the call return true. -/
theorem c3_update_return_value (st : BuzzerState) (now : Nat) :
    (update st now).1 =
      ((st.pulseState.active && st.config.pin != 255) &&
        ((update st now).2.1.pulseState.last == now)) := by
  by_cases hc : (st.pulseState.active && st.config.pin != 255) = true
  · rw [update_pulse_branch st now hc, hc, Bool.true_and]
    unfold tickPulse
    dsimp only
    split
    · split <;> rfl
    · rfl
  · have hc' : (st.pulseState.active && st.config.pin != 255) = false :=
      Bool.not_eq_true _ |>.mp hc
    rw [update_else_branch st now hc', hc', Bool.false_and]

/-- C7: a melody step with `frequency == 0` is a pure rest — ticking it never
emits a tone-start event on the pin driver — and the melody advances past the
step only when at least `duration + rest` milliseconds (in 32-bit clock
arithmetic) have elapsed since the step's recorded start, exactly as for a
sounding step. -/
theorem c7_silent_step_advances_on_time (st : BuzzerState) (now : Nat)
    (hact : st.melodyState.active = true)
    (hpin : st.config.pin ≠ 255)
    (hpu : st.pulseState.active = false)
    (hpa : st.patternState.active = false)
    (hidx : st.melodyState.current < st.melodyState.count)
    (hfreq : ((st.melodyState.tones.getD []).getD st.melodyState.current
        default).frequency = 0) :
    (update st now).2.2.all notAToneStart = true ∧
    ((update st now).2.1.melodyState.current ≠ st.melodyState.current →
      st.melodyState.toneStart ≠ 0 ∧
      sub32 now st.melodyState.toneStart ≥
        ((st.melodyState.tones.getD []).getD st.melodyState.current
          default).duration +
        ((st.melodyState.tones.getD []).getD st.melodyState.current
          default).rest) := by
  have hc' : (st.pulseState.active && st.config.pin != 255) = false := by
    simp [hpu]
  have hguard : (st.melodyState.active && st.config.pin != 255 &&
      !st.pulseState.active && !st.patternState.active) = true := by
    simp [hact, hpin, hpu, hpa]
  have hpp : tickPatternPhase st now = st := by
    simp [tickPatternPhase, hpa]
  rw [update_else_branch st now hc', hpp]
  rcases hE : (st.melodyState.tones.getD []).getD st.melodyState.current default
    with ⟨fr, du, re⟩
  have hfr : fr = 0 := by rw [hE] at hfreq; exact hfreq
  subst hfr
  unfold tickMelodyPhase
  dsimp only
  rw [hE]
  by_cases hts : st.melodyState.toneStart = 0
  · simp [hguard, hidx, hts]
  · by_cases hpt : st.melodyState.playingTone = true
    · by_cases hth : sub32 now st.melodyState.toneStart ≥ du
      · simp [hguard, hidx, hts, hpt, hth, notAToneStart]
      · simp [hguard, hidx, hts, hpt, hth]
    · have hpt' : st.melodyState.playingTone = false := by
        simpa using hpt
      by_cases hth : sub32 now st.melodyState.toneStart ≥ du + re
      · simp [hguard, hidx, hts, hpt', hth]
      · simp [hguard, hidx, hts, hpt', hth]

/-- The state used by the C7 witness: pin 5, a one-step melody whose step 0
has frequency 0 (duration 30, rest 50), started at t = 10 and past its
sounding phase. -/
def c7State : BuzzerState :=
  { initialState 5 with
    melodyState := ⟨some [⟨0, 30, 50⟩], 1, 0, true, false, 10, false⟩ }

/-- C7, witness: at t = 100 the silent step of `c7State` advances (90 ms
elapsed, at least 30 + 50) while emitting no tone-start event. -/
theorem c7_silent_step_advances_on_time_witness :
    (c7State.melodyState.active = true ∧ c7State.config.pin ≠ 255 ∧
     c7State.pulseState.active = false ∧ c7State.patternState.active = false ∧
     c7State.melodyState.current < c7State.melodyState.count ∧
     ((c7State.melodyState.tones.getD []).getD c7State.melodyState.current
       default).frequency = 0) ∧
    ((update c7State 100).2.2.all notAToneStart = true ∧
     ((update c7State 100).2.1.melodyState.current ≠ c7State.melodyState.current →
       c7State.melodyState.toneStart ≠ 0 ∧
       sub32 100 c7State.melodyState.toneStart ≥
         ((c7State.melodyState.tones.getD []).getD c7State.melodyState.current
           default).duration +
         ((c7State.melodyState.tones.getD []).getD c7State.melodyState.current
           default).rest)) :=
  ⟨⟨by decide, by decide, by decide, by decide, by decide, by decide⟩,
    c7_silent_step_advances_on_time c7State 100 (by decide) (by decide)
      (by decide) (by decide) (by decide) (by decide)⟩

/-- C8: calling `pulse` with `count == 0`, `pattern` with a null list or
`count == 0`, `melody` with a null list or `count == 0`, or any of them with
no configured pin (`pin == 255`), is a silent no-op: the whole buzzer state
is returned unchanged and no pin-driver call is made. -/
theorem c8_invalid_input_noop (st : BuzzerState) (c f d i : Nat)
    (ps : Option (List Pulse)) (pc : Nat) (pr : Bool) (pd : Nat)
    (ts : Option (List Tone)) (mc : Nat) (mr : Bool)
    (h1 : st.config.pin = 255 ∨ c = 0)
    (h2 : st.config.pin = 255 ∨ ps = none ∨ pc = 0)
    (h3 : st.config.pin = 255 ∨ ts = none ∨ mc = 0) :
    pulse st c f d i = st ∧
    pattern st ps pc pr pd = st ∧
    melody st ts mc mr = (st, []) := by
  refine ⟨?_, ?_, ?_⟩
  · rcases h1 with h | h <;> simp [pulse, h]
  · rcases h2 with h | h | h <;> simp [pattern, h]
  · rcases h3 with h | h | h <;> simp [melody, h]

/-- C8, witness: on an unconfigured device (pin 255) all three start
operations leave the state untouched. -/
theorem c8_invalid_input_noop_witness :
    (((initialState 255).config.pin = 255 ∨ (3 : Nat) = 0) ∧
     ((initialState 255).config.pin = 255 ∨
       (some [(⟨1, 100, 10, 10, 0, false⟩ : Pulse)] : Option (List Pulse)) = none ∨
       (1 : Nat) = 0) ∧
     ((initialState 255).config.pin = 255 ∨
       (some [(⟨440, 100, 50⟩ : Tone)] : Option (List Tone)) = none ∨
       (1 : Nat) = 0)) ∧
    (pulse (initialState 255) 3 100 10 10 = initialState 255 ∧
     pattern (initialState 255) (some [⟨1, 100, 10, 10, 0, false⟩]) 1 true 300 =
       initialState 255 ∧
     melody (initialState 255) (some [⟨440, 100, 50⟩]) 1 true =
       (initialState 255, [])) :=
  ⟨⟨by decide, by decide, by decide⟩,
    c8_invalid_input_noop (initialState 255) 3 100 10 10
      (some [⟨1, 100, 10, 10, 0, false⟩]) 1 true 300
      (some [⟨440, 100, 50⟩]) 1 true
      (by decide) (by decide) (by decide)⟩

/-- Helper: whenever the `pulseBlocking` loop terminates by its own
condition, the remaining pulse count of the returned state is zero. -/
theorem pulseLoop_exit (clk : Nat → Nat) :
    ∀ (fuel i : Nat) (st : BuzzerState),
      optionHolds (fun s => s.pulseState.pulses == 0)
        (pulseLoop clk fuel i st) = true := by
  intro fuel
  induction fuel with
  | zero => intro i st; rfl
  | succ n ih =>
    intro i st
    unfold pulseLoop
    split
    · exact ih (i + 1) _
    · rename_i h
      have h0 : st.pulseState.pulses = 0 := by simpa using h
      simp [optionHolds, h0]

/-- Helper: whenever the `patternBlocking` loop terminates by its own
condition, both the pattern and the embedded pulse-train active flags of the
returned state are false. -/
theorem patternLoop_exit (clk : Nat → Nat) :
    ∀ (fuel i : Nat) (st : BuzzerState),
      optionHolds (fun s => !s.patternState.active && !s.pulseState.active)
        (patternLoop clk fuel i st) = true := by
  intro fuel
  induction fuel with
  | zero => intro i st; rfl
  | succ n ih =>
    intro i st
    unfold patternLoop
    split
    · exact ih (i + 1) _
    · rename_i h
      have h0 : st.patternState.active = false ∧ st.pulseState.active = false := by
        constructor <;> [skip; skip] <;> simp_all
      simp [optionHolds, h0.1, h0.2]

/-- Helper: whenever the `melodyBlocking` loop terminates by its own
condition, the melody active flag of the returned state is false. -/
theorem melodyLoop_exit (clk : Nat → Nat) :
    ∀ (fuel i : Nat) (st : BuzzerState),
      optionHolds (fun s => !s.melodyState.active)
        (melodyLoop clk fuel i st) = true := by
  intro fuel
  induction fuel with
  | zero => intro i st; rfl
  | succ n ih =>
    intro i st
    unfold melodyLoop
    split
    · exact ih (i + 1) _
    · rename_i h
      have h0 : st.melodyState.active = false := by simpa using h
      simp [optionHolds, h0]

/-- C9, amended: each blocking wrapper only starts the corresponding
non-blocking operation and then repeatedly invokes the shared `update`
dispatcher, introducing no separate timing logic; `patternBlocking` and
`melodyBlocking` loop on the active flags, so whenever they return the
pattern (and embedded pulse train) respectively melody active flags are
false — but `pulseBlocking` loops on the remaining pulse count instead, so
on return `pulseState.pulses = 0` while `pulseState.active` may still be
true (see the counterexample; it is cleared only by a later update). -/
theorem c9_blocking_wrappers_exit_conditions (clk : Nat → Nat) (fuel : Nat)
    (st : BuzzerState) (c f d i : Nat)
    (ps : Option (List Pulse)) (pc : Nat) (pr : Bool) (pd : Nat)
    (ts : Option (List Tone)) (mc : Nat) (mr : Bool) :
    optionHolds (fun s => s.pulseState.pulses == 0)
      (pulseBlocking clk fuel st c f d i) = true ∧
    optionHolds (fun s => !s.patternState.active && !s.pulseState.active)
      (patternBlocking clk fuel st ps pc pr pd) = true ∧
    optionHolds (fun s => !s.melodyState.active)
      (melodyBlocking clk fuel st ts mc mr) = true :=
  ⟨pulseLoop_exit clk fuel 0 _, patternLoop_exit clk fuel 0 _,
    melodyLoop_exit clk fuel 0 _⟩

/-- C10: `melodyBlocking(tones, count, repeat)` computes exactly the same
result as `melodyBlocking(tones, count, false)` for either value of the
repeat argument: the wrapper overwrites the melody's repeat flag with false
right after starting it, so the repeat argument never causes a loop. -/
theorem c10_melodyBlocking_ignores_repeat (clk : Nat → Nat) (fuel : Nat)
    (st : BuzzerState) (ts : Option (List Tone)) (mc : Nat) (r : Bool) :
    melodyBlocking clk fuel st ts mc r = melodyBlocking clk fuel st ts mc false := by
  unfold melodyBlocking melody
  dsimp only
  split <;> rfl

end AsyncBuzzer
